import Mathlib

/-!
# X11 drag-and-drop target: the event loop of `example.c`

A shallow embedding of the body of the `while (running)` loop of `main`.

Conventions.

* Atoms, window ids and X timestamps (`unsigned long`) and client-message data
  words (`long`, `int64_t`) are 64-bit objects; conversions between them keep
  the bit pattern.  Each such object is represented by an `Int`, and those
  conversions are the identity.
* The two narrowing conversions of the program are explicit: the chosen format
  is stored in an `int32_t` (`toInt32`), and the index of the format-selection
  loop is a `uint32_t` (arithmetic modulo `2 ^ 32`).
* Item counts returned by `XGetWindowProperty` (`unsigned long`) are `Nat`.
  The `XGetWindowProperty` of libX11 stores a count of at most `0x7fffffe`
  (`maxPropertyItems`); a theorem that needs this bound takes it as a
  hypothesis on `Env.getWindowProperty`.
* Calls into Xlib that answer a question (`XGetAtomName`, `XGetWindowProperty`,
  `XTranslateCoordinates`) and the values fixed before the loop (`window`, the
  interned atoms) are fields of `Env`.  Calls that act on the outside world
  (`XSendEvent`, `XConvertSelection`, `printf`) are recorded as `Effect`s, in
  program order.  `XFlush` and `XFree` are not recorded.
* The format-selection loop takes a fuel argument and returns `none` when the
  fuel runs out: it terminates for every count below `2 ^ 32 - 2`, but not for
  every `unsigned long` count.
-/

namespace Xdnd

/-- The X11 constant `None` (also the value `0L` of an absent atom). -/
def None : Int := 0

/-- The X11 constant `CurrentTime`. -/
def CurrentTime : Int := 0

/-- The predefined atom `XA_ATOM`, written `4` in the source. -/
def XA_ATOM : Int := 4

/-- Conversion to `int32_t`: keep the low 32 bits, read as a signed number. -/
def toInt32 (x : Int) : Int := (x + 2 ^ 31) % 2 ^ 32 - 2 ^ 31

/-- Conversion of an `unsigned long` count to `uint32_t`. -/
def toUInt32 (n : Nat) : Nat := n % 2 ^ 32

/-- Bit 0 of a data word, `x & 1`, as a truth value. -/
def lowBit (x : Int) : Bool := decide (x % 2 = 1)

/-- An `XClientMessageEvent` with `format == 32`: the fields the program reads
or writes.  `l0 .. l4` are `data.l[0] .. data.l[4]`. -/
structure ClientMessage where
  window : Int
  message_type : Int
  format : Int
  l0 : Int
  l1 : Int
  l2 : Int
  l3 : Int
  l4 : Int
  deriving DecidableEq

/-- An `XSelectionEvent`: the fields the program reads. -/
structure SelectionEvent where
  requestor : Int
  property : Int
  target : Int
  deriving DecidableEq

/-- What `XGetWindowProperty` hands back: the item count (`nitems_return`) and
the returned array (`prop_return`), indexed from 0. -/
structure Property where
  nitems : Nat
  items : Nat → Int

/-- What `XTranslateCoordinates` hands back: its `Bool` result and the contents
of `xpos`, `ypos` after the call. -/
structure Translated where
  ok : Bool
  xpos : Int
  ypos : Int
  deriving DecidableEq

/-- Everything the loop body reads from outside: the values computed before the
loop and the answers of the window system. -/
structure Env where
  window : Int
  wm_delete_window : Int
  XdndTypeList : Int
  XdndSelection : Int
  XdndEnter : Int
  XdndPosition : Int
  XdndStatus : Int
  XdndLeave : Int
  XdndDrop : Int
  XdndFinished : Int
  XdndActionCopy : Int
  /-- The root window, `XDefaultRootWindow(display)`. -/
  rootWindow : Int
  /-- The answer of `XGetAtomName(display, atom)`. -/
  getAtomName : Int → String
  /-- The answer of `XGetWindowProperty(display, w, property, 0, LONG_MAX, False, req_type, ..)`. -/
  getWindowProperty : Int → Int → Int → Property
  /-- The answer of `XTranslateCoordinates(display, src_w, dest_w, src_x, src_y, ..)`. -/
  translateCoordinates : Int → Int → Int → Int → Translated

/-- The variables of `main` that live across iterations of the loop. -/
structure State where
  running : Bool
  source : Int
  version : Int
  format : Int
  deriving DecidableEq

/-- The observable actions of the loop body. -/
inductive Effect where
  /-- `XSendEvent(display, dest, False, NoEventMask, &reply)`. -/
  | sendEvent (dest : Int) (reply : ClientMessage)
  /-- `XConvertSelection(display, selection, target, property, requestor, time)`. -/
  | convertSelection (selection target property requestor time : Int)
  /-- `printf("File drop starting at %i %i\n", xpos, ypos)`. -/
  | printDropStart (xpos ypos : Int)
  /-- `printf("File(s) dropped: %s\n", data)`, with the delivered items. -/
  | printDropped (data : List Int)
  deriving DecidableEq

/-- The events the `switch (E.type)` tells apart. -/
inductive Event where
  | keyPress
  | clientMessage (m : ClientMessage)
  | selectionNotify (e : SelectionEvent)
  | other
  deriving DecidableEq

/-- The array `links` of the format-selection loop. -/
def links : List String := ["text/uri-list", "text/plain"]

/-- The inner loop `for (j = 0; j < 2; j++) if (strcmp(name, links[j]) == 0)`:
whether some entry of `links` equals `name`. -/
def matchesLink (name : String) : Bool := links.any (fun l => name == l)

/-- The `else` branch of `if (list)`: `real_formats` receives the data words 2,
3, 4 that are not `None`, in that order, and `count` is their number. -/
def inlineFormats (m : ClientMessage) : List Int :=
  (if m.l2 ≠ None then [m.l2] else []) ++
  (if m.l3 ≠ None then [m.l3] else []) ++
  (if m.l4 ≠ None then [m.l4] else [])

/-- The candidate array and its count after `if (list) .. else ..`. -/
def enterCandidates (env : Env) (source : Int) (m : ClientMessage) : Property :=
  if lowBit m.l1 then
    env.getWindowProperty source env.XdndTypeList XA_ATOM
  else
    { nitems := (inlineFormats m).length, items := fun i => (inlineFormats m).getD i None }

/-- The loop `for (i = 0; i < (uint32_t)count; i++)` from the state `(i, format)`.
On a match the body stores `formats[i]` in `format`, sets `i = count + 1` (as
`uint32_t`) and leaves the inner loop; the `i++` of the outer loop then runs.
Returns the value of `format` at loop exit, `none` if `fuel` iterations did not
suffice. -/
def formatLoop (getAtomName : Int → String) (count : Nat) (formats : Nat → Int) :
    Nat → Nat → Int → Option Int
  | 0, _, _ => none
  | fuel + 1, i, format =>
    if i < toUInt32 count then
      if matchesLink (getAtomName (formats i)) then
        formatLoop getAtomName count formats fuel
          ((toUInt32 (count + 1) + 1) % 2 ^ 32) (toInt32 (formats i))
      else
        formatLoop getAtomName count formats fuel ((i + 1) % 2 ^ 32) format
    else
      some format

/-- The branch `if (E.xclient.message_type == XdndEnter)`. -/
def handleEnter (env : Env) (fuel : Nat) (s : State) (m : ClientMessage) : Option State :=
  let s1 : State := { s with source := m.l0, version := m.l1 >>> 24, format := None }
  if s1.version > 5 then
    some s1
  else
    let c := enterCandidates env s1.source m
    (formatLoop env.getAtomName c.nitems c.items fuel 0 s1.format).map
      (fun f => { s1 with format := f })

/-- The `XdndStatus` reply built in the position branch. -/
def statusReply (env : Env) (s : State) : ClientMessage :=
  { window := s.source
    message_type := env.XdndStatus
    format := 32
    l0 := env.window
    l1 := if s.format ≠ 0 then 1 else 0
    l2 := 0
    l3 := 0
    l4 := if s.format ≠ 0 ∧ s.version ≥ 2 then env.XdndActionCopy else 0 }

/-- The branch `if (E.xclient.message_type == XdndPosition)`. -/
def handlePosition (env : Env) (s : State) (m : ClientMessage) : State × List Effect :=
  let xabs := toInt32 ((m.l2 >>> 16) % 2 ^ 16)
  let yabs := toInt32 (m.l2 % 2 ^ 16)
  if s.version > 5 then
    (s, [])
  else
    let t := env.translateCoordinates env.rootWindow env.window xabs yabs
    (s, [Effect.printDropStart t.xpos t.ypos, Effect.sendEvent s.source (statusReply env s)])

/-- The `XdndFinished` reply built in the drop branch when no format was chosen. -/
def finishedRejectReply (env : Env) (s : State) : ClientMessage :=
  { window := s.source
    message_type := env.XdndFinished
    format := 32
    l0 := env.window
    l1 := 0
    l2 := None
    l3 := 0
    l4 := 0 }

/-- The statement `if (E.xclient.message_type = XdndDrop && version <= 5) ..`,
reached by every client message that is neither the window-close message, nor
an enter, nor a position message.  The condition is an assignment: its value is
`XdndDrop && version <= 5`, whatever the type of the message. -/
def handleDrop (env : Env) (s : State) (m : ClientMessage) : State × List Effect :=
  if env.XdndDrop ≠ 0 ∧ s.version ≤ 5 then
    if s.format ≠ 0 then
      let time := if s.version ≥ 1 then m.l2 else CurrentTime
      (s, [Effect.convertSelection env.XdndSelection s.format env.XdndSelection env.window time])
    else if s.version ≥ 2 then
      (s, [Effect.sendEvent s.source (finishedRejectReply env s)])
    else
      (s, [])
  else
    (s, [])

/-- The `case ClientMessage` of the switch. -/
def handleClientMessage (env : Env) (fuel : Nat) (s : State) (m : ClientMessage) :
    Option (State × List Effect) :=
  if m.l0 = env.wm_delete_window then
    some ({ s with running := false }, [])
  else if m.message_type = env.XdndEnter then
    (handleEnter env fuel s m).map (fun s1 => (s1, []))
  else if m.message_type = env.XdndPosition then
    some (handlePosition env s m)
  else
    some (handleDrop env s m)

/-- The `XdndFinished` reply built after a payload was delivered; `result` is
the item count of the delivered property. -/
def finishedReply (env : Env) (s : State) (result : Nat) : ClientMessage :=
  { window := s.source
    message_type := env.XdndFinished
    format := 32
    l0 := env.window
    l1 := (result : Int)
    l2 := env.XdndActionCopy
    l3 := 0
    l4 := 0 }

/-- The `case SelectionNotify` of the switch. -/
def handleSelectionNotify (env : Env) (s : State) (e : SelectionEvent) : State × List Effect :=
  if e.property ≠ env.XdndSelection then
    (s, [])
  else
    let p := env.getWindowProperty e.requestor e.property e.target
    if p.nitems = 0 then
      (s, [])
    else
      let shown := Effect.printDropped ((List.range p.nitems).map p.items)
      if s.version ≥ 2 then
        (s, [shown, Effect.sendEvent s.source (finishedReply env s p.nitems)])
      else
        (s, [shown])

/-- One iteration of the loop body: the `switch (E.type)`. -/
def step (env : Env) (fuel : Nat) (s : State) : Event → Option (State × List Effect)
  | Event.keyPress => some ({ s with running := false }, [])
  | Event.clientMessage m => handleClientMessage env fuel s m
  | Event.selectionNotify e => some (handleSelectionNotify env s e)
  | Event.other => some (s, [])

/-- The loop `while (running)` over the events `XNextEvent` delivers, in order;
the effects of all iterations are concatenated. -/
def run (env : Env) (fuel : Nat) : State → List Event → Option (State × List Effect)
  | s, [] => some (s, [])
  | s, ev :: rest =>
    if s.running then
      match step env fuel s ev with
      | none => none
      | some (s1, out1) =>
        match run env fuel s1 rest with
        | none => none
        | some (s2, out2) => some (s2, out1 ++ out2)
    else
      some (s, [])

/-- The client messages among the effects, with their destination, in order. -/
def sentMessages : List Effect → List (Int × ClientMessage)
  | [] => []
  | Effect.sendEvent d r :: rest => (d, r) :: sentMessages rest
  | _ :: rest => sentMessages rest

/-- The selection-conversion requests among the effects, in order, as
`(selection, target, property, requestor, time)`. -/
def conversionRequests : List Effect → List (Int × Int × Int × Int × Int)
  | [] => []
  | Effect.convertSelection a b c d t :: rest => (a, b, c, d, t) :: conversionRequests rest
  | _ :: rest => conversionRequests rest

/-- The payloads printed among the effects, in order. -/
def surfacedPayloads : List Effect → List (List Int)
  | [] => []
  | Effect.printDropped d :: rest => d :: surfacedPayloads rest
  | _ :: rest => surfacedPayloads rest

/-- Format selection as the specification words it: the first candidate, in the
advertised order, whose resolved name is exactly "text/uri-list" or
"text/plain"; `none` when no candidate qualifies. -/
def firstAcceptable (getAtomName : Int → String) (candidates : List Int) : Option Int :=
  candidates.find?
    (fun a => decide (getAtomName a = "text/uri-list" ∨ getAtomName a = "text/plain"))

/-- The candidate sequence held in a candidate array: its first `nitems` entries. -/
def candidateList (p : Property) : List Int := (List.range p.nitems).map p.items

/-! ## Concrete inputs -/

/-- A window system with small atom numbers: 400 is "text/uri-list", 401 is
"text/plain", 402 is "application/octet-stream".  The type list of every
window is `[401, 400]`, every other property holds the 17 characters of
`file:///tmp/a.txt`, and coordinate translation succeeds. -/
def demoEnv : Env :=
  { window := 100
    wm_delete_window := 300
    XdndTypeList := 301
    XdndSelection := 302
    XdndEnter := 303
    XdndPosition := 304
    XdndStatus := 305
    XdndLeave := 306
    XdndDrop := 307
    XdndFinished := 308
    XdndActionCopy := 309
    rootWindow := 1
    getAtomName := fun a =>
      if a = 400 then "text/uri-list"
      else if a = 401 then "text/plain"
      else if a = 402 then "application/octet-stream"
      else ""
    getWindowProperty := fun _ p _ =>
      if p = 301 then
        { nitems := 2, items := fun i => if i = 0 then 401 else 400 }
      else
        { nitems := 17
          items := fun i =>
            [102, 105, 108, 101, 58, 47, 47, 47, 116, 109, 112, 47, 97, 46, 116, 120, 116].getD i 0 }
    translateCoordinates := fun _ _ x y => { ok := true, xpos := x - 10, ypos := y - 10 } }

/-- A session opened by window 7 at protocol version 5 with format 400 chosen. -/
def demoState : State := { running := true, source := 7, version := 5, format := 400 }

/-- The word `data.l[1]` of an enter message: the version in the top byte, the
fetch-list flag in bit 0. -/
def enterWord (version : Int) (list : Bool) : Int := version * 2 ^ 24 + (if list then 1 else 0)

/-- A client message of the given type from window 7 with the given words 1 to 4. -/
def demoMessage (type l1 l2 l3 l4 : Int) : ClientMessage :=
  { window := 100, message_type := type, format := 32, l0 := 7, l1 := l1, l2 := l2, l3 := l3,
    l4 := l4 }

/-- The window system of `demoEnv`, except that every property read returns no
item. -/
def emptyPayloadEnv : Env :=
  { demoEnv with getWindowProperty := fun _ _ _ => { nitems := 0, items := fun _ => 0 } }

/-- The window system of `demoEnv`, except that every property read returns
the two characters `ab`. -/
def evenPayloadEnv : Env :=
  { demoEnv with
    getWindowProperty := fun _ _ _ => { nitems := 2, items := fun i => if i = 0 then 97 else 98 } }

/-- The window system of `demoEnv`, except that coordinate translation fails
and leaves 0 in both output variables. -/
def failedTranslationEnv : Env :=
  { demoEnv with translateCoordinates := fun _ _ _ _ => { ok := false, xpos := 0, ypos := 0 } }

/-- The selection notification that answers a conversion request of window 100
on the selection atom 302 for the target 400. -/
def demoNotify : SelectionEvent := { requestor := 100, property := 302, target := 400 }

/-- The session of the specification: source handle, version, chosen format. -/
def sessionOf (s : State) : Int × Int × Int := (s.source, s.version, s.format)

/-- The drop action as the specification words it, from the source handle, the
version, the chosen format and data word 2 of the message: at version 5 or
below a conversion request when a format is chosen (time from data word 2 at
version 1 or above, `CurrentTime` below), else an `XdndFinished` message that
does not accept when the version is at least 2; nothing above version 5. -/
def dropAction (env : Env) (source version format l2 : Int) : List Effect :=
  if version ≤ 5 then
    if format ≠ None then
      [Effect.convertSelection env.XdndSelection format env.XdndSelection env.window
        (if 1 ≤ version then l2 else CurrentTime)]
    else if 2 ≤ version then
      [Effect.sendEvent source
        { window := source, message_type := env.XdndFinished, format := 32,
          l0 := env.window, l1 := 0, l2 := None, l3 := 0, l4 := 0 }]
    else []
  else []

/-- The inline candidates as the specification words them: the values among
data words 2, 3, 4 that are not `None`, in that order. -/
def inlineCandidatesSpec (m : ClientMessage) : List Int :=
  [m.l2, m.l3, m.l4].filter (fun a => decide (a ≠ None))

/-- A candidate array whose entry 0 is atom 401 ("text/plain") and whose other
entries are atom 400 ("text/uri-list"). -/
def plainThenUriList : Nat → Int := fun i => if i = 0 then 401 else 400

/-- A session opened by window 9 at protocol version 2 with no format chosen. -/
def otherState : State := { running := true, source := 9, version := 2, format := None }

/-- The largest item count the `XGetWindowProperty` of libX11 stores in
`nitems_return`: a reply with more items is refused. -/
def maxPropertyItems : Nat := 0x7fffffe

/-- The window system answers property reads as libX11 does: no answer has
more than `maxPropertyItems` items. -/
def propertyReadsBounded (env : Env) : Prop :=
  ∀ w p t : Int, (env.getWindowProperty w p t).nitems ≤ maxPropertyItems

/-- A candidate array whose entries 0, 1, 2 are the atoms 402
("application/octet-stream"), 401 ("text/plain") and 400 ("text/uri-list"). -/
def octetPlainUri : Nat → Int := fun i => [402, 401, 400].getD i None

/-! # Theorems -/

/-! ## The format-selection loop -/

theorem matchesLink_iff (name : String) :
    matchesLink name = true ↔ name = "text/uri-list" ∨ name = "text/plain" := by
  simp [matchesLink, links]

/-- Below the wrap-around of the 32-bit index, the loop started at index `i`
with `d` candidates left returns the first acceptable one among them, and the
incoming value of `format` when there is none. -/
theorem formatLoop_scan (g : Int → String) (count : Nat) (formats : Nat → Int)
    (hc : count + 2 < 2 ^ 32) :
    ∀ (d i fuel : Nat) (fmt : Int), i + d = count → d + 1 ≤ fuel →
      formatLoop g count formats fuel i fmt =
        some (((firstAcceptable g ((List.range' i d).map formats)).map toInt32).getD fmt) := by
  intro d
  induction d with
  | zero =>
    intro i fuel fmt hi hf
    obtain ⟨k, rfl⟩ : ∃ k, fuel = k + 1 := ⟨fuel - 1, by omega⟩
    have hlt : ¬ i < toUInt32 count := by
      unfold toUInt32
      omega
    simp [formatLoop, hlt, firstAcceptable]
  | succ d ih =>
    intro i fuel fmt hi hf
    obtain ⟨k, rfl⟩ : ∃ k, fuel = k + 1 := ⟨fuel - 1, by omega⟩
    have hcount : toUInt32 count = count := by
      unfold toUInt32
      omega
    have hlt : i < toUInt32 count := by
      rw [hcount]
      omega
    by_cases hm : matchesLink (g (formats i)) = true
    · have hexit : (toUInt32 (count + 1) + 1) % 2 ^ 32 = count + 2 := by
        unfold toUInt32
        omega
      obtain ⟨k2, rfl⟩ : ∃ k2, k = k2 + 1 := ⟨k - 1, by omega⟩
      have hstop : ¬ count + 2 < toUInt32 count := by
        rw [hcount]
        omega
      have hacc := (matchesLink_iff (g (formats i))).mp hm
      have hfind : firstAcceptable g ((List.range' i (d + 1)).map formats) = some (formats i) := by
        simp [firstAcceptable, List.range'_succ, hacc]
      rw [hfind, formatLoop, if_pos hlt, if_pos hm, hexit, formatLoop, if_neg hstop]
      rfl
    · have hacc : ¬ (g (formats i) = "text/uri-list" ∨ g (formats i) = "text/plain") :=
        fun h => hm ((matchesLink_iff _).mpr h)
      have hnext : (i + 1) % 2 ^ 32 = i + 1 := by omega
      have hfind : firstAcceptable g ((List.range' i (d + 1)).map formats) =
          firstAcceptable g ((List.range' (i + 1) d).map formats) := by
        simp [firstAcceptable, List.range'_succ, hacc]
      rw [hfind, formatLoop, if_pos hlt, if_neg hm, hnext]
      exact ih (i + 1) k fmt (by omega) (by omega)

/-- With fewer than `2 ^ 32 - 2` candidates and `count + 1` units of fuel the
whole loop returns the first acceptable candidate, narrowed to `int32_t`. -/
theorem formatLoop_first_acceptable (g : Int → String) (p : Property)
    (hc : p.nitems + 2 < 2 ^ 32) (fuel : Nat) (hf : p.nitems + 1 ≤ fuel) (fmt : Int) :
    formatLoop g p.nitems p.items fuel 0 fmt =
      some (((firstAcceptable g (candidateList p)).map toInt32).getD fmt) := by
  have h := formatLoop_scan g p.nitems p.items hc p.nitems 0 fuel fmt (by omega) hf
  rw [h, candidateList, List.range_eq_range']

/-- When the low 32 bits of the count are `2 ^ 32 - 2` and the candidate at
index 0 is acceptable, the index is reset to 0 after every match: the loop does
not return, whatever the fuel. -/
theorem formatLoop_wraps_to_zero (g : Int → String) (count : Nat) (formats : Nat → Int)
    (hc : count % 2 ^ 32 = 2 ^ 32 - 2) (hm : matchesLink (g (formats 0)) = true) :
    ∀ (fuel : Nat) (fmt : Int), formatLoop g count formats fuel 0 fmt = none := by
  intro fuel
  induction fuel with
  | zero => intro fmt; rfl
  | succ k ih =>
    intro fmt
    have hlt : 0 < toUInt32 count := by
      unfold toUInt32
      omega
    have hexit : (toUInt32 (count + 1) + 1) % 2 ^ 32 = 0 := by
      unfold toUInt32
      omega
    rw [formatLoop, if_pos hlt, if_pos hm, hexit]
    exact ih _

/-! ## Enter -/

/-- An enter message with a supported version and fewer than `2 ^ 32 - 2`
candidates: with `count + 1` units of fuel the handler returns; it stores the
source and the version of the message and chooses the first acceptable
candidate, narrowed to `int32_t`, or `None` when there is none.  Nothing is
sent. -/
theorem enter_first_acceptable (env : Env) (fuel : Nat) (s : State) (m : ClientMessage)
    (hclose : m.l0 ≠ env.wm_delete_window) (hty : m.message_type = env.XdndEnter)
    (hv : m.l1 >>> 24 ≤ 5)
    (hc : (enterCandidates env m.l0 m).nitems + 2 < 2 ^ 32)
    (hf : (enterCandidates env m.l0 m).nitems + 1 ≤ fuel) :
    step env fuel s (Event.clientMessage m) =
      some ({ running := s.running, source := m.l0, version := m.l1 >>> 24,
              format := ((firstAcceptable env.getAtomName
                (candidateList (enterCandidates env m.l0 m))).map toInt32).getD None }, []) := by
  have hv2 : ¬ m.l1 >>> 24 > 5 := by omega
  simp only [step, handleClientMessage, if_neg hclose, hty, if_true, handleEnter, if_neg hv2]
  rw [formatLoop_first_acceptable env.getAtomName _ hc fuel hf]
  rfl

/-- The type list `[text/plain, text/uri-list]` (atoms 401, 400) of `demoEnv`:
the enter handler chooses atom 401, the "text/plain" candidate. -/
theorem enter_plain_listed_first :
    step demoEnv 3 demoState (Event.clientMessage (demoMessage 303 (enterWord 5 true) 0 0 0)) =
      some ({ running := true, source := 7, version := 5, format := 401 }, []) := by
  decide

theorem toInt32_of_fits (a : Int) (hlo : -2 ^ 31 ≤ a) (hhi : a < 2 ^ 31) : toInt32 a = a := by
  unfold toInt32
  omega

/-- The candidates of an enter message are at most 3 inline words or the answer
of a property read. -/
theorem enterCandidates_bounded (env : Env) (source : Int) (m : ClientMessage)
    (hlib : propertyReadsBounded env) :
    (enterCandidates env source m).nitems ≤ maxPropertyItems := by
  unfold enterCandidates
  split
  · exact hlib _ _ _
  · have h3 : (inlineFormats m).length ≤ 3 := by
      unfold inlineFormats
      by_cases h2 : m.l2 = None <;> by_cases h3 : m.l3 = None <;> by_cases h4 : m.l4 = None <;>
        simp [h2, h3, h4]
    exact h3.trans (by decide)

/-- C1: first-match format selection.  For every window system that answers
property reads as libX11 does, every state and every enter message with version
at most 5 that is not the window-close message, the handler returns (given
`count + 1` units of fuel) without sending anything, and the chosen format is
the first candidate, in the advertised order, whose resolved name is exactly
"text/uri-list" or "text/plain": the format variable holds that candidate
narrowed to `int32_t`, which is the candidate itself when it fits in 32 bits,
as every atom does.  When no candidate qualifies the chosen format is `None`. -/
theorem enter_selects_first_acceptable (env : Env) (fuel : Nat) (s : State)
    (m : ClientMessage)
    (hclose : m.l0 ≠ env.wm_delete_window) (hty : m.message_type = env.XdndEnter)
    (hv : m.l1 >>> 24 ≤ 5) (hlib : propertyReadsBounded env)
    (hf : (enterCandidates env m.l0 m).nitems + 1 ≤ fuel) :
    ∃ s1, step env fuel s (Event.clientMessage m) = some (s1, []) ∧
      (∀ a, firstAcceptable env.getAtomName (candidateList (enterCandidates env m.l0 m)) =
          some a →
        s1.format = toInt32 a ∧ (-2 ^ 31 ≤ a ∧ a < 2 ^ 31 → s1.format = a)) ∧
      (firstAcceptable env.getAtomName (candidateList (enterCandidates env m.l0 m)) = none →
        s1.format = None) := by
  have hb := enterCandidates_bounded env m.l0 m hlib
  have hc : (enterCandidates env m.l0 m).nitems + 2 < 2 ^ 32 := by
    unfold maxPropertyItems at hb
    omega
  refine ⟨_, enter_first_acceptable env fuel s m hclose hty hv hc hf, ?_, ?_⟩
  · intro a ha
    have hfmt : ((firstAcceptable env.getAtomName
        (candidateList (enterCandidates env m.l0 m))).map toInt32).getD None = toInt32 a := by
      rw [ha]
      rfl
    exact ⟨hfmt, fun h => hfmt.trans (toInt32_of_fits a h.1 h.2)⟩
  · intro hnone
    show ((firstAcceptable env.getAtomName
        (candidateList (enterCandidates env m.l0 m))).map toInt32).getD None = None
    rw [hnone]
    rfl

/-- C1, witness: the source window advertises the type list
`[text/plain, text/uri-list]` (atoms 401, 400); the handler returns and the
candidates are 401 followed by 400, so the format chosen is 401, the
"text/plain" candidate. -/
theorem enter_selects_first_acceptable_witness :
    ((demoMessage 303 (enterWord 5 true) 0 0 0).l0 ≠ demoEnv.wm_delete_window ∧
      (demoMessage 303 (enterWord 5 true) 0 0 0).message_type = demoEnv.XdndEnter ∧
      (demoMessage 303 (enterWord 5 true) 0 0 0).l1 >>> 24 ≤ 5 ∧
      propertyReadsBounded demoEnv ∧
      (enterCandidates demoEnv (demoMessage 303 (enterWord 5 true) 0 0 0).l0
        (demoMessage 303 (enterWord 5 true) 0 0 0)).nitems + 1 ≤ 3 ∧
      candidateList (enterCandidates demoEnv 7 (demoMessage 303 (enterWord 5 true) 0 0 0)) =
        [401, 400] ∧
      firstAcceptable demoEnv.getAtomName [401, 400] = some 401) ∧
    ∃ s1, step demoEnv 3 demoState
        (Event.clientMessage (demoMessage 303 (enterWord 5 true) 0 0 0)) = some (s1, []) ∧
      (∀ a, firstAcceptable demoEnv.getAtomName
          (candidateList (enterCandidates demoEnv (demoMessage 303 (enterWord 5 true) 0 0 0).l0
            (demoMessage 303 (enterWord 5 true) 0 0 0))) = some a →
        s1.format = toInt32 a ∧ (-2 ^ 31 ≤ a ∧ a < 2 ^ 31 → s1.format = a)) ∧
      (firstAcceptable demoEnv.getAtomName
          (candidateList (enterCandidates demoEnv (demoMessage 303 (enterWord 5 true) 0 0 0).l0
            (demoMessage 303 (enterWord 5 true) 0 0 0))) = none →
        s1.format = None) :=
  ⟨⟨by decide, by decide, by decide,
      fun _ p _ => by
        show (if p = 301 then _ else _ : Property).nitems ≤ maxPropertyItems
        split <;> decide,
      by decide, by decide, by decide⟩,
    enter_selects_first_acceptable demoEnv 3 demoState
      (demoMessage 303 (enterWord 5 true) 0 0 0) (by decide) (by decide) (by decide)
      (fun _ p _ => by
        show (if p = 301 then _ else _ : Property).nitems ≤ maxPropertyItems
        split <;> decide)
      (by decide)⟩

/-! ## Messages that are neither enter nor position -/

/-- C2, the code at a failing input: in a session of version 5 with format 400
chosen, a leave message (type atom 306) makes the handler issue a
selection-conversion request, exactly as a drop message would. -/
theorem leave_issues_conversion_request :
    step demoEnv 0 demoState (Event.clientMessage (demoMessage 306 0 0 0 0)) =
      some (demoState, [Effect.convertSelection 302 400 302 100 0]) := by
  decide

/-- With a version above 5 every client message other than the window-close
message and an enter message leaves the state alone and has no effect. -/
theorem client_message_silent_above_5 (env : Env) (fuel : Nat) (s : State) (m : ClientMessage)
    (hclose : m.l0 ≠ env.wm_delete_window) (hty : m.message_type ≠ env.XdndEnter)
    (hv : 5 < s.version) :
    step env fuel s (Event.clientMessage m) = some (s, []) := by
  have hv2 : ¬ s.version ≤ 5 := by omega
  by_cases hp : m.message_type = env.XdndPosition
  · simp only [step, handleClientMessage, if_neg hclose, if_neg hty, if_pos hp, handlePosition]
    rw [if_pos (by omega)]
  · simp only [step, handleClientMessage, if_neg hclose, if_neg hty, if_neg hp, handleDrop]
    rw [if_neg (fun h => hv2 h.2)]

/-- C3, the code at a failing input: an enter message advertising version 6 is
followed by a selection notification on the Xdnd selection whose property holds
17 items.  The session version is 6, and an `XdndFinished` message is sent to
the source all the same. -/
theorem payload_delivery_replies_at_version_6 :
    (run demoEnv 0 demoState
        [Event.clientMessage (demoMessage 303 (enterWord 6 false) 400 0 0),
         Event.selectionNotify demoNotify]).map
      (fun r => (r.1.version, sentMessages r.2)) =
      some (6, [(7, { window := 7, message_type := 308, format := 32, l0 := 100, l1 := 17,
                      l2 := 309, l3 := 0, l4 := 0 })]) := by
  decide

/-! ## Payload delivery -/

/-- A selection notification on the Xdnd selection whose property holds at
least one item: the items are printed, and when the version is at least 2 one
`XdndFinished` message goes to the source, whose data word 1 is the item count
and whose data word 2 is the copy action; below version 2 nothing is sent. -/
theorem selection_notify_nonempty (env : Env) (fuel : Nat) (s : State) (e : SelectionEvent)
    (hp : e.property = env.XdndSelection)
    (hn : (env.getWindowProperty e.requestor e.property e.target).nitems ≠ 0) :
    ∃ out, step env fuel s (Event.selectionNotify e) = some (s, out) ∧
      surfacedPayloads out =
        [candidateList (env.getWindowProperty e.requestor e.property e.target)] ∧
      conversionRequests out = [] ∧
      sentMessages out =
        if 2 ≤ s.version then
          [(s.source,
            { window := s.source, message_type := env.XdndFinished, format := 32,
              l0 := env.window,
              l1 := ((env.getWindowProperty e.requestor e.property e.target).nitems : Int),
              l2 := env.XdndActionCopy, l3 := 0, l4 := 0 })]
        else [] := by
  by_cases hv : 2 ≤ s.version
  · have hstep : step env fuel s (Event.selectionNotify e) = some (s,
        [Effect.printDropped (candidateList (env.getWindowProperty e.requestor e.property e.target)),
         Effect.sendEvent s.source (finishedReply env s
          (env.getWindowProperty e.requestor e.property e.target).nitems)]) := by
      simp only [step, handleSelectionNotify]
      rw [if_neg (not_not.mpr hp), if_neg hn, if_pos (show s.version ≥ 2 from hv)]
      rfl
    exact ⟨_, hstep, by
      simp [surfacedPayloads, conversionRequests, sentMessages, finishedReply, hv]⟩
  · have hstep : step env fuel s (Event.selectionNotify e) = some (s,
        [Effect.printDropped
          (candidateList (env.getWindowProperty e.requestor e.property e.target))]) := by
      simp only [step, handleSelectionNotify]
      rw [if_neg (not_not.mpr hp), if_neg hn, if_neg (show ¬ s.version ≥ 2 from hv)]
      rfl
    exact ⟨_, hstep, by simp [surfacedPayloads, conversionRequests, sentMessages, hv]⟩

/-- C4, the code at a failing input: in a session of version 5 a payload of two
items is delivered.  One `XdndFinished` message is sent to the source with the
copy action, but its data word 1 is the item count 2, whose bit 0 (the accept
flag) is clear. -/
theorem finished_accept_flag_clear_for_two_items :
    (step evenPayloadEnv 0 demoState (Event.selectionNotify demoNotify)).map
        (fun r => sentMessages r.2) =
      some [(7, { window := 7, message_type := 308, format := 32, l0 := 100, l1 := 2,
                  l2 := 309, l3 := 0, l4 := 0 })] ∧
    lowBit 2 = false := by
  decide

/-- C5, counterexample: in a session of version 5 the delivered property holds
no item; no `XdndFinished` message with the accept flag set is sent to the
source (nothing is sent at all). -/
theorem empty_payload_sends_no_finished :
    2 ≤ demoState.version ∧
    (emptyPayloadEnv.getWindowProperty demoNotify.requestor demoNotify.property
      demoNotify.target).nitems = 0 ∧
    ¬ ∃ s1 out r,
        step emptyPayloadEnv 0 demoState (Event.selectionNotify demoNotify) = some (s1, out) ∧
        (demoState.source, r) ∈ sentMessages out ∧
        r.message_type = emptyPayloadEnv.XdndFinished ∧ lowBit r.l1 = true := by
  refine ⟨by decide, by decide, ?_⟩
  rintro ⟨s1, out, r, hstep, hmem, -, -⟩
  have heval : step emptyPayloadEnv 0 demoState (Event.selectionNotify demoNotify) =
      some (demoState, []) := by decide
  rw [heval] at hstep
  cases hstep
  simp [sentMessages] at hmem

/-- C5, as amended: a selection notification on the Xdnd selection whose
property holds no item has no effect at all, whatever the version: nothing is
printed, nothing is sent, no conversion is requested, and the state is
unchanged. -/
theorem selection_notify_empty_is_silent (env : Env) (fuel : Nat) (s : State)
    (e : SelectionEvent) (hp : e.property = env.XdndSelection)
    (hn : (env.getWindowProperty e.requestor e.property e.target).nitems = 0) :
    step env fuel s (Event.selectionNotify e) = some (s, []) := by
  simp only [step, handleSelectionNotify]
  rw [if_neg (not_not.mpr hp), if_pos hn]

/-- C5, witness of the amended statement: version 5, a property without items. -/
theorem selection_notify_empty_is_silent_witness :
    (demoNotify.property = emptyPayloadEnv.XdndSelection ∧
      (emptyPayloadEnv.getWindowProperty demoNotify.requestor demoNotify.property
        demoNotify.target).nitems = 0) ∧
    step emptyPayloadEnv 0 demoState (Event.selectionNotify demoNotify) =
      some (demoState, []) :=
  ⟨⟨by decide, by decide⟩,
    selection_notify_empty_is_silent emptyPayloadEnv 0 demoState demoNotify (by decide)
      (by decide)⟩

/-! ## Position -/

/-- C6: in a state with version at most 5, a position message (a client message
that is not the window-close message and whose type is `XdndPosition`) leaves
the state unchanged and sends exactly one message, an `XdndStatus` message to
the source, with this window in data word 0, data word 1 equal to 1 if a format
is chosen and 0 otherwise, data words 2 and 3 equal to 0, and data word 4 equal
to the copy action exactly when a format is chosen and the version is at least
2, and 0 otherwise.  No conversion is requested. -/
theorem position_sends_status (env : Env) (fuel : Nat) (s : State) (m : ClientMessage)
    (hclose : m.l0 ≠ env.wm_delete_window) (hty : m.message_type = env.XdndPosition)
    (hatoms : env.XdndPosition ≠ env.XdndEnter) (hv : s.version ≤ 5) :
    ∃ out, step env fuel s (Event.clientMessage m) = some (s, out) ∧
      sentMessages out =
        [(s.source,
          { window := s.source, message_type := env.XdndStatus, format := 32,
            l0 := env.window,
            l1 := if s.format ≠ None then 1 else 0,
            l2 := 0, l3 := 0,
            l4 := if s.format ≠ None ∧ 2 ≤ s.version then env.XdndActionCopy else 0 })] ∧
      conversionRequests out = [] := by
  have hne : m.message_type ≠ env.XdndEnter := hty ▸ hatoms
  have hstep : step env fuel s (Event.clientMessage m) = some (handlePosition env s m) := by
    simp only [step, handleClientMessage, if_neg hclose, if_neg hne, if_pos hty]
  have hpos : handlePosition env s m = (s,
      [Effect.printDropStart
        (env.translateCoordinates env.rootWindow env.window
          (toInt32 ((m.l2 >>> 16) % 2 ^ 16)) (toInt32 (m.l2 % 2 ^ 16))).xpos
        (env.translateCoordinates env.rootWindow env.window
          (toInt32 ((m.l2 >>> 16) % 2 ^ 16)) (toInt32 (m.l2 % 2 ^ 16))).ypos,
       Effect.sendEvent s.source (statusReply env s)]) := by
    simp only [handlePosition]
    rw [if_neg (by omega)]
  rw [hpos] at hstep
  exact ⟨_, hstep, by simp [sentMessages, conversionRequests, statusReply, None]⟩

/-- C6, witness: a position message at root coordinates (50, 60) in a session of
version 5 with format 400 chosen. -/
theorem position_sends_status_witness :
    ((demoMessage 304 0 (50 * 2 ^ 16 + 60) 0 0).l0 ≠ demoEnv.wm_delete_window ∧
      (demoMessage 304 0 (50 * 2 ^ 16 + 60) 0 0).message_type = demoEnv.XdndPosition ∧
      demoEnv.XdndPosition ≠ demoEnv.XdndEnter ∧ demoState.version ≤ 5) ∧
    ∃ out, step demoEnv 0 demoState
        (Event.clientMessage (demoMessage 304 0 (50 * 2 ^ 16 + 60) 0 0)) =
          some (demoState, out) ∧
      sentMessages out =
        [(7, { window := 7, message_type := 305, format := 32, l0 := 100, l1 := 1, l2 := 0,
               l3 := 0, l4 := 309 })] ∧
      conversionRequests out = [] :=
  ⟨⟨by decide, by decide, by decide, by decide⟩,
    position_sends_status demoEnv 0 demoState (demoMessage 304 0 (50 * 2 ^ 16 + 60) 0 0)
      (by decide) (by decide) (by decide) (by decide)⟩

/-! ## Drop -/

/-- C7: in a state with version at most 5 and a format chosen, a drop message
(a client message that is not the window-close message and whose type is
`XdndDrop`) leaves the state unchanged and has exactly one effect: a conversion
request on the `XdndSelection` selection for the chosen format, into the
`XdndSelection` property of this window, with the time of data word 2 when the
version is at least 1 and `CurrentTime` below that.  No message is sent. -/
theorem drop_requests_conversion (env : Env) (fuel : Nat) (s : State) (m : ClientMessage)
    (hclose : m.l0 ≠ env.wm_delete_window) (hty : m.message_type = env.XdndDrop)
    (hatom : env.XdndDrop ≠ None) (henter : env.XdndDrop ≠ env.XdndEnter)
    (hpos : env.XdndDrop ≠ env.XdndPosition)
    (hv : s.version ≤ 5) (hfmt : s.format ≠ None) :
    ∃ out, step env fuel s (Event.clientMessage m) = some (s, out) ∧
      conversionRequests out =
        [(env.XdndSelection, s.format, env.XdndSelection, env.window,
          if 1 ≤ s.version then m.l2 else CurrentTime)] ∧
      sentMessages out = [] ∧
      out.length = 1 := by
  have hne : m.message_type ≠ env.XdndEnter := hty ▸ henter
  have hnp : m.message_type ≠ env.XdndPosition := hty ▸ hpos
  have hfmt0 : s.format ≠ 0 := hfmt
  have hatom0 : env.XdndDrop ≠ 0 := hatom
  have hstep : step env fuel s (Event.clientMessage m) =
      some (s, [Effect.convertSelection env.XdndSelection s.format env.XdndSelection
                  env.window (if 1 ≤ s.version then m.l2 else CurrentTime)]) := by
    simp only [step, handleClientMessage, if_neg hclose, if_neg hne, if_neg hnp, handleDrop]
    rw [if_pos ⟨hatom0, hv⟩, if_pos hfmt0]
  exact ⟨_, hstep, rfl, rfl, rfl⟩

/-- C7, witness: a drop message with time 123456 in a session of version 5 with
format 400 chosen. -/
theorem drop_requests_conversion_witness :
    ((demoMessage 307 0 123456 0 0).l0 ≠ demoEnv.wm_delete_window ∧
      (demoMessage 307 0 123456 0 0).message_type = demoEnv.XdndDrop ∧
      demoEnv.XdndDrop ≠ None ∧ demoEnv.XdndDrop ≠ demoEnv.XdndEnter ∧
      demoEnv.XdndDrop ≠ demoEnv.XdndPosition ∧
      demoState.version ≤ 5 ∧ demoState.format ≠ None) ∧
    ∃ out, step demoEnv 0 demoState (Event.clientMessage (demoMessage 307 0 123456 0 0)) =
        some (demoState, out) ∧
      conversionRequests out = [(302, 400, 302, 100, 123456)] ∧
      sentMessages out = [] ∧
      out.length = 1 :=
  ⟨⟨by decide, by decide, by decide, by decide, by decide, by decide, by decide⟩,
    drop_requests_conversion demoEnv 0 demoState (demoMessage 307 0 123456 0 0)
      (by decide) (by decide) (by decide) (by decide) (by decide) (by decide) (by decide)⟩

/-- C8: in a state with version at most 5 and no format chosen, a drop message
leaves the state unchanged and requests no conversion.  When the version is at
least 2 exactly one message is sent, an `XdndFinished` message to the source
with data word 1 equal to 0 (not accepted) and data word 2 equal to `None` (no
action); when the version is below 2 there is no effect at all. -/
theorem drop_without_format (env : Env) (fuel : Nat) (s : State) (m : ClientMessage)
    (hclose : m.l0 ≠ env.wm_delete_window) (hty : m.message_type = env.XdndDrop)
    (hatom : env.XdndDrop ≠ None) (henter : env.XdndDrop ≠ env.XdndEnter)
    (hpos : env.XdndDrop ≠ env.XdndPosition)
    (hv : s.version ≤ 5) (hfmt : s.format = None) :
    ∃ out, step env fuel s (Event.clientMessage m) = some (s, out) ∧
      conversionRequests out = [] ∧
      (2 ≤ s.version →
        out = [Effect.sendEvent s.source
          { window := s.source, message_type := env.XdndFinished, format := 32,
            l0 := env.window, l1 := 0, l2 := None, l3 := 0, l4 := 0 }]) ∧
      (s.version < 2 → out = []) := by
  have hne : m.message_type ≠ env.XdndEnter := hty ▸ henter
  have hnp : m.message_type ≠ env.XdndPosition := hty ▸ hpos
  have hstep : step env fuel s (Event.clientMessage m) = some (handleDrop env s m) := by
    simp only [step, handleClientMessage, if_neg hclose, if_neg hne, if_neg hnp]
  have hfmt0 : ¬ s.format ≠ 0 := not_not.mpr hfmt
  have hatom0 : env.XdndDrop ≠ 0 := hatom
  by_cases h2 : 2 ≤ s.version
  · have hdrop : handleDrop env s m =
        (s, [Effect.sendEvent s.source (finishedRejectReply env s)]) := by
      simp only [handleDrop]
      rw [if_pos ⟨hatom0, hv⟩, if_neg hfmt0, if_pos (show s.version ≥ 2 from h2)]
    rw [hdrop] at hstep
    exact ⟨_, hstep, rfl, fun _ => rfl, fun h => absurd h2 (by omega)⟩
  · have hdrop : handleDrop env s m = (s, []) := by
      simp only [handleDrop]
      rw [if_pos ⟨hatom0, hv⟩, if_neg hfmt0, if_neg (show ¬ s.version ≥ 2 from h2)]
    rw [hdrop] at hstep
    exact ⟨_, hstep, rfl, fun h => absurd h h2, fun _ => rfl⟩

/-- C8, witness: an enter message of version 2 whose only candidate is atom 402
("application/octet-stream") leaves no format chosen; the drop message that
follows is answered with one `XdndFinished` message that does not accept. -/
theorem drop_without_format_witness :
    (step demoEnv 2 demoState
        (Event.clientMessage (demoMessage 303 (enterWord 2 false) 402 0 0)) =
      some ({ running := true, source := 7, version := 2, format := None }, []) ∧
      (demoMessage 307 0 123456 0 0).l0 ≠ demoEnv.wm_delete_window ∧
      (demoMessage 307 0 123456 0 0).message_type = demoEnv.XdndDrop ∧
      demoEnv.XdndDrop ≠ None ∧ demoEnv.XdndDrop ≠ demoEnv.XdndEnter ∧
      demoEnv.XdndDrop ≠ demoEnv.XdndPosition) ∧
    ∃ out, step demoEnv 0 { running := true, source := 7, version := 2, format := None }
        (Event.clientMessage (demoMessage 307 0 123456 0 0)) =
          some ({ running := true, source := 7, version := 2, format := None }, out) ∧
      conversionRequests out = [] ∧
      ((2 : Int) ≤ 2 →
        out = [Effect.sendEvent 7
          { window := 7, message_type := 308, format := 32,
            l0 := 100, l1 := 0, l2 := None, l3 := 0, l4 := 0 }]) ∧
      ((2 : Int) < 2 → out = []) :=
  ⟨⟨by decide, by decide, by decide, by decide, by decide, by decide⟩,
    drop_without_format demoEnv 0 { running := true, source := 7, version := 2, format := None }
      (demoMessage 307 0 123456 0 0)
      (by decide) (by decide) (by decide) (by decide) (by decide) (by decide) rfl⟩

/-! ## Failed coordinate translation -/

/-- C9, counterexample: coordinate translation fails, and the position message
is answered with an `XdndStatus` message all the same. -/
theorem failed_translation_still_answered :
    (failedTranslationEnv.translateCoordinates failedTranslationEnv.rootWindow
        failedTranslationEnv.window 50 60).ok = false ∧
    step failedTranslationEnv 0 demoState
        (Event.clientMessage (demoMessage 304 0 (50 * 2 ^ 16 + 60) 0 0)) =
      some (demoState,
        [Effect.printDropStart 0 0,
         Effect.sendEvent 7 { window := 7, message_type := 305, format := 32, l0 := 100,
                              l1 := 1, l2 := 0, l3 := 0, l4 := 309 }]) := by
  decide

/-- C9, as amended: in a state with version at most 5, a position message for
which coordinate translation fails leaves the state unchanged and is answered
with exactly one `XdndStatus` message to the source, the same message that is
sent when translation succeeds. -/
theorem position_with_failed_translation (env : Env) (fuel : Nat) (s : State)
    (m : ClientMessage)
    (hclose : m.l0 ≠ env.wm_delete_window) (hty : m.message_type = env.XdndPosition)
    (hatoms : env.XdndPosition ≠ env.XdndEnter) (hv : s.version ≤ 5)
    (_hfail : (env.translateCoordinates env.rootWindow env.window
      (toInt32 ((m.l2 >>> 16) % 2 ^ 16)) (toInt32 (m.l2 % 2 ^ 16))).ok = false) :
    ∃ out, step env fuel s (Event.clientMessage m) = some (s, out) ∧
      sentMessages out =
        [(s.source,
          { window := s.source, message_type := env.XdndStatus, format := 32,
            l0 := env.window,
            l1 := if s.format ≠ None then 1 else 0,
            l2 := 0, l3 := 0,
            l4 := if s.format ≠ None ∧ 2 ≤ s.version then env.XdndActionCopy else 0 })] := by
  have hne : m.message_type ≠ env.XdndEnter := hty ▸ hatoms
  have hstep : step env fuel s (Event.clientMessage m) = some (handlePosition env s m) := by
    simp only [step, handleClientMessage, if_neg hclose, if_neg hne, if_pos hty]
  have hposn : handlePosition env s m = (s,
      [Effect.printDropStart
        (env.translateCoordinates env.rootWindow env.window
          (toInt32 ((m.l2 >>> 16) % 2 ^ 16)) (toInt32 (m.l2 % 2 ^ 16))).xpos
        (env.translateCoordinates env.rootWindow env.window
          (toInt32 ((m.l2 >>> 16) % 2 ^ 16)) (toInt32 (m.l2 % 2 ^ 16))).ypos,
       Effect.sendEvent s.source (statusReply env s)]) := by
    simp only [handlePosition]
    rw [if_neg (by omega)]
  rw [hposn] at hstep
  exact ⟨_, hstep, by simp [sentMessages, statusReply, None]⟩

/-- C9, witness of the amended statement: a position message at root coordinates
(50, 60) while coordinate translation fails. -/
theorem position_with_failed_translation_witness :
    ((demoMessage 304 0 (50 * 2 ^ 16 + 60) 0 0).l0 ≠ failedTranslationEnv.wm_delete_window ∧
      (demoMessage 304 0 (50 * 2 ^ 16 + 60) 0 0).message_type =
        failedTranslationEnv.XdndPosition ∧
      failedTranslationEnv.XdndPosition ≠ failedTranslationEnv.XdndEnter ∧
      demoState.version ≤ 5 ∧
      (failedTranslationEnv.translateCoordinates failedTranslationEnv.rootWindow
        failedTranslationEnv.window
        (toInt32 (((demoMessage 304 0 (50 * 2 ^ 16 + 60) 0 0).l2 >>> 16) % 2 ^ 16))
        (toInt32 ((demoMessage 304 0 (50 * 2 ^ 16 + 60) 0 0).l2 % 2 ^ 16))).ok = false) ∧
    ∃ out, step failedTranslationEnv 0 demoState
        (Event.clientMessage (demoMessage 304 0 (50 * 2 ^ 16 + 60) 0 0)) =
          some (demoState, out) ∧
      sentMessages out =
        [(7, { window := 7, message_type := 305, format := 32, l0 := 100, l1 := 1, l2 := 0,
               l3 := 0, l4 := 309 })] :=
  ⟨⟨by decide, by decide, by decide, by decide, by decide⟩,
    position_with_failed_translation failedTranslationEnv 0 demoState
      (demoMessage 304 0 (50 * 2 ^ 16 + 60) 0 0)
      (by decide) (by decide) (by decide) (by decide) (by decide)⟩

/-! ## Enter with an unsupported version -/

/-- C10, counterexample: the session of window 7 (version 5, format 400) is
open when window 9 sends an enter message advertising version 6.  Afterwards
the source is 9, the version is 6 and the chosen format is `None`: the state
is not the state before. -/
theorem unsupported_enter_overwrites_session :
    ({ window := 100, message_type := 303, format := 32, l0 := 9, l1 := enterWord 6 false,
       l2 := 400, l3 := 0, l4 := 0 } : ClientMessage).l1 >>> 24 = 6 ∧
    step demoEnv 0 demoState
        (Event.clientMessage
          { window := 100, message_type := 303, format := 32, l0 := 9, l1 := enterWord 6 false,
            l2 := 400, l3 := 0, l4 := 0 }) =
      some ({ running := true, source := 9, version := 6, format := 0 }, []) ∧
    ({ running := true, source := 9, version := 6, format := 0 } : State) ≠ demoState := by
  decide

/-- C10, as amended: an enter message whose advertised version (data word 1
shifted right by 24) is greater than 5 is not negotiated: no candidate is
examined (the handler returns with any fuel) and nothing is sent.  The session
variables are overwritten all the same: the source becomes data word 0, the
version becomes the advertised version, and the chosen format becomes `None`. -/
theorem unsupported_enter_resets_session (env : Env) (fuel : Nat) (s : State)
    (m : ClientMessage)
    (hclose : m.l0 ≠ env.wm_delete_window) (hty : m.message_type = env.XdndEnter)
    (hv : 5 < m.l1 >>> 24) :
    step env fuel s (Event.clientMessage m) =
      some ({ running := s.running, source := m.l0, version := m.l1 >>> 24, format := None },
            []) := by
  simp only [step, handleClientMessage, if_neg hclose, if_pos hty, handleEnter]
  rw [if_pos (show m.l1 >>> 24 > 5 from hv)]
  rfl

/-- C10, witness of the amended statement: window 7 advertises version 6. -/
theorem unsupported_enter_resets_session_witness :
    ((demoMessage 303 (enterWord 6 false) 400 0 0).l0 ≠ demoEnv.wm_delete_window ∧
      (demoMessage 303 (enterWord 6 false) 400 0 0).message_type = demoEnv.XdndEnter ∧
      5 < (demoMessage 303 (enterWord 6 false) 400 0 0).l1 >>> 24) ∧
    step demoEnv 0 demoState (Event.clientMessage (demoMessage 303 (enterWord 6 false) 400 0 0)) =
      some ({ running := true, source := 7, version := 6, format := None }, []) :=
  ⟨⟨by decide, by decide, by decide⟩,
    unsupported_enter_resets_session demoEnv 0 demoState
      (demoMessage 303 (enterWord 6 false) 400 0 0) (by decide) (by decide) (by decide)⟩

/-! ## Dispatch of client messages -/

/-- A position message at version 5 or below: the state is kept, the translated
coordinates are printed and the status reply is sent to the source. -/
theorem position_step (env : Env) (fuel : Nat) (s : State) (m : ClientMessage)
    (hclose : m.l0 ≠ env.wm_delete_window) (hty : m.message_type = env.XdndPosition)
    (hatoms : env.XdndPosition ≠ env.XdndEnter) (hv : s.version ≤ 5) :
    step env fuel s (Event.clientMessage m) = some (s,
      [Effect.printDropStart
        (env.translateCoordinates env.rootWindow env.window
          (toInt32 ((m.l2 >>> 16) % 2 ^ 16)) (toInt32 (m.l2 % 2 ^ 16))).xpos
        (env.translateCoordinates env.rootWindow env.window
          (toInt32 ((m.l2 >>> 16) % 2 ^ 16)) (toInt32 (m.l2 % 2 ^ 16))).ypos,
       Effect.sendEvent s.source (statusReply env s)]) := by
  have hne : m.message_type ≠ env.XdndEnter := hty ▸ hatoms
  simp only [step, handleClientMessage, if_neg hclose, if_neg hne, if_pos hty, handlePosition]
  rw [if_neg (by omega)]

/-- A client message that is neither the window-close message, nor an enter,
nor a position message runs the statement at line 169. -/
theorem drop_step (env : Env) (fuel : Nat) (s : State) (m : ClientMessage)
    (hclose : m.l0 ≠ env.wm_delete_window) (henter : m.message_type ≠ env.XdndEnter)
    (hpos : m.message_type ≠ env.XdndPosition) :
    step env fuel s (Event.clientMessage m) = some (handleDrop env s m) := by
  simp only [step, handleClientMessage, if_neg hclose, if_neg henter, if_neg hpos]

/-- An enter message with a supported version: the handler returns exactly when
the selection loop, started at index 0 with `format = None`, returns; the new
state holds the source and version of the message and the format the loop
computed.  Nothing is sent. -/
theorem enter_step (env : Env) (fuel : Nat) (s : State) (m : ClientMessage)
    (hclose : m.l0 ≠ env.wm_delete_window) (hty : m.message_type = env.XdndEnter)
    (hv : m.l1 >>> 24 ≤ 5) :
    step env fuel s (Event.clientMessage m) =
      (formatLoop env.getAtomName (enterCandidates env m.l0 m).nitems
          (enterCandidates env m.l0 m).items fuel 0 None).map
        (fun f => (({ running := s.running, source := m.l0, version := m.l1 >>> 24,
                      format := f } : State), ([] : List Effect))) := by
  have hv2 : ¬ m.l1 >>> 24 > 5 := by omega
  simp only [step, handleClientMessage, if_neg hclose, hty, if_true, handleEnter, if_neg hv2]
  cases formatLoop env.getAtomName (enterCandidates env m.l0 m).nitems
      (enterCandidates env m.l0 m).items fuel 0 None <;> rfl

theorem handlePosition_state (env : Env) (s : State) (m : ClientMessage) :
    (handlePosition env s m).1 = s := by
  unfold handlePosition
  split <;> rfl

theorem handleDrop_state (env : Env) (s : State) (m : ClientMessage) :
    (handleDrop env s m).1 = s := by
  unfold handleDrop
  split
  · split
    · rfl
    · split <;> rfl
  · rfl

/-- A client message whose type is not `XdndEnter` is always processed, and
the source, the version and the chosen format are what they were before. -/
theorem non_enter_keeps_session (env : Env) (fuel : Nat) (s : State) (m : ClientMessage)
    (henter : m.message_type ≠ env.XdndEnter) :
    ∃ s1 out, step env fuel s (Event.clientMessage m) = some (s1, out) ∧
      s1.source = s.source ∧ s1.version = s.version ∧ s1.format = s.format := by
  by_cases hclose : m.l0 = env.wm_delete_window
  · exact ⟨{ s with running := false }, [], by
      simp only [step, handleClientMessage, if_pos hclose], rfl, rfl, rfl⟩
  · by_cases hpos : m.message_type = env.XdndPosition
    · refine ⟨(handlePosition env s m).1, (handlePosition env s m).2, ?_, ?_⟩
      · simp only [step, handleClientMessage, if_neg hclose, if_neg henter, if_pos hpos]
      · rw [handlePosition_state]
        exact ⟨rfl, rfl, rfl⟩
    · refine ⟨(handleDrop env s m).1, (handleDrop env s m).2, drop_step env fuel s m hclose
        henter hpos, ?_⟩
      rw [handleDrop_state]
      exact ⟨rfl, rfl, rfl⟩

/-! ## Payload delivery and the history of the session -/

/-- C11, counterexample: after one drop message in a session of version 5 with
a format chosen, two selection notifications with a non-empty payload follow
one another.  Two `XdndFinished` messages are sent, one for each. -/
theorem two_deliveries_two_finished :
    (run demoEnv 0 demoState
        [Event.clientMessage (demoMessage 307 0 123456 0 0),
         Event.selectionNotify demoNotify, Event.selectionNotify demoNotify]).map
      (fun r => sentMessages r.2) =
      some [(7, { window := 7, message_type := 308, format := 32, l0 := 100, l1 := 17,
                  l2 := 309, l3 := 0, l4 := 0 }),
            (7, { window := 7, message_type := 308, format := 32, l0 := 100, l1 := 17,
                  l2 := 309, l3 := 0, l4 := 0 })] := by
  decide

/-- C11, as amended: payload delivery is answered whatever came before.  In
every state with version at least 2 and at most 5 (no drop need have been
processed) a selection notification on the Xdnd selection with a non-empty
payload sends one `XdndFinished` message to the stored source and leaves the
state unchanged; a second such notification right after it is answered in the
same way. -/
theorem payload_delivery_ignores_history (env : Env) (fuel : Nat) (s : State)
    (e : SelectionEvent) (hp : e.property = env.XdndSelection)
    (hn : (env.getWindowProperty e.requestor e.property e.target).nitems ≠ 0)
    (hv : 2 ≤ s.version) (_hv5 : s.version ≤ 5) :
    ∃ s1 out1 s2 out2,
      step env fuel s (Event.selectionNotify e) = some (s1, out1) ∧
      step env fuel s1 (Event.selectionNotify e) = some (s2, out2) ∧
      s1 = s ∧ s2 = s ∧
      sentMessages out1 =
        [(s.source,
          { window := s.source, message_type := env.XdndFinished, format := 32,
            l0 := env.window,
            l1 := ((env.getWindowProperty e.requestor e.property e.target).nitems : Int),
            l2 := env.XdndActionCopy, l3 := 0, l4 := 0 })] ∧
      sentMessages out2 = sentMessages out1 := by
  obtain ⟨out, hstep, -, -, hsent⟩ := selection_notify_nonempty env fuel s e hp hn
  rw [if_pos hv] at hsent
  exact ⟨s, out, s, out, hstep, hstep, rfl, rfl, hsent, rfl⟩

/-- C11, witness of the amended statement: the session of window 7 at version 5,
in which no drop message has been processed. -/
theorem payload_delivery_ignores_history_witness :
    (demoNotify.property = demoEnv.XdndSelection ∧
      (demoEnv.getWindowProperty demoNotify.requestor demoNotify.property
        demoNotify.target).nitems ≠ 0 ∧
      2 ≤ demoState.version ∧ demoState.version ≤ 5) ∧
    ∃ s1 out1 s2 out2,
      step demoEnv 0 demoState (Event.selectionNotify demoNotify) = some (s1, out1) ∧
      step demoEnv 0 s1 (Event.selectionNotify demoNotify) = some (s2, out2) ∧
      s1 = demoState ∧ s2 = demoState ∧
      sentMessages out1 =
        [(7, { window := 7, message_type := 308, format := 32, l0 := 100, l1 := 17,
               l2 := 309, l3 := 0, l4 := 0 })] ∧
      sentMessages out2 = sentMessages out1 :=
  ⟨⟨by decide, by decide, by decide, by decide⟩,
    payload_delivery_ignores_history demoEnv 0 demoState demoNotify (by decide) (by decide)
      (by decide) (by decide)⟩

/-! ## The session after enter -/

/-- C12: a position message or a drop message is always processed, and the
source handle, the version and the chosen format after it are the values
before it. -/
theorem position_and_drop_keep_session (env : Env) (fuel : Nat) (s : State)
    (m : ClientMessage)
    (hty : m.message_type = env.XdndPosition ∨ m.message_type = env.XdndDrop)
    (hpos : env.XdndPosition ≠ env.XdndEnter) (hdrop : env.XdndDrop ≠ env.XdndEnter) :
    ∃ s1 out, step env fuel s (Event.clientMessage m) = some (s1, out) ∧
      s1.source = s.source ∧ s1.version = s.version ∧ s1.format = s.format := by
  have henter : m.message_type ≠ env.XdndEnter := by
    rcases hty with h | h
    · exact h ▸ hpos
    · exact h ▸ hdrop
  exact non_enter_keeps_session env fuel s m henter

/-- C12, witness: a drop message in the session of window 7. -/
theorem position_and_drop_keep_session_witness :
    (((demoMessage 307 0 123456 0 0).message_type = demoEnv.XdndPosition ∨
        (demoMessage 307 0 123456 0 0).message_type = demoEnv.XdndDrop) ∧
      demoEnv.XdndPosition ≠ demoEnv.XdndEnter ∧ demoEnv.XdndDrop ≠ demoEnv.XdndEnter) ∧
    ∃ s1 out, step demoEnv 0 demoState (Event.clientMessage (demoMessage 307 0 123456 0 0)) =
        some (s1, out) ∧
      s1.source = 7 ∧ s1.version = 5 ∧ s1.format = 400 :=
  ⟨⟨by decide, by decide, by decide⟩,
    position_and_drop_keep_session demoEnv 0 demoState (demoMessage 307 0 123456 0 0)
      (by decide) (by decide) (by decide)⟩

/-- C13, counterexample: in the session of window 7 (version 5, format 400) a
leave message is followed by a position message, with no enter in between.
The chosen format is still 400 afterwards, and the position message is
answered with an accepting `XdndStatus` message (data word 1 is 1). -/
theorem leave_keeps_chosen_format :
    (run demoEnv 0 demoState
        [Event.clientMessage (demoMessage 306 0 0 0 0),
         Event.clientMessage (demoMessage 304 0 (50 * 2 ^ 16 + 60) 0 0)]).map
      (fun r => (r.1.format, (sentMessages r.2).map (fun d => (d.2.message_type, d.2.l1)))) =
      some (400, [(305, 1)]) := by
  decide

/-- A client message that is neither the window-close message nor an enter
message is always processed and leaves the whole state as it was. -/
theorem non_enter_keeps_state (env : Env) (fuel : Nat) (s : State) (m : ClientMessage)
    (hclose : m.l0 ≠ env.wm_delete_window) (henter : m.message_type ≠ env.XdndEnter) :
    ∃ out, step env fuel s (Event.clientMessage m) = some (s, out) := by
  by_cases hpos : m.message_type = env.XdndPosition
  · refine ⟨(handlePosition env s m).2, ?_⟩
    simp only [step, handleClientMessage, if_neg hclose, if_neg henter, if_pos hpos]
    exact congrArg some (Prod.ext (handlePosition_state env s m) rfl)
  · refine ⟨(handleDrop env s m).2, ?_⟩
    rw [drop_step env fuel s m hclose henter hpos]
    exact congrArg some (Prod.ext (handleDrop_state env s m) rfl)

/-- C13, as amended: in every session state a leave message is processed and
leaves the session as it is: source, version and chosen format keep their
values, the chosen format is not cleared.  Any client message that follows is
therefore processed exactly as it would have been before the leave; in
particular a position message arriving without a new enter, in a session with a
format chosen and version at most 5, is answered with an accepting `XdndStatus`
message. -/
theorem leave_keeps_session (env : Env) (fuel : Nat) (s : State) (m p : ClientMessage)
    (hclose : m.l0 ≠ env.wm_delete_window) (hty : m.message_type = env.XdndLeave)
    (hleave : env.XdndLeave ≠ env.XdndEnter) :
    ∃ s1 out1,
      step env fuel s (Event.clientMessage m) = some (s1, out1) ∧
      s1.source = s.source ∧ s1.version = s.version ∧ s1.format = s.format ∧
      s1 = s ∧
      step env fuel s1 (Event.clientMessage p) = step env fuel s (Event.clientMessage p) ∧
      (p.l0 ≠ env.wm_delete_window ∧ p.message_type = env.XdndPosition ∧
          env.XdndPosition ≠ env.XdndEnter ∧ s.version ≤ 5 ∧ s.format ≠ None →
        ∃ out2, step env fuel s1 (Event.clientMessage p) = some (s1, out2) ∧
          sentMessages out2 =
            [(s.source,
              { window := s.source, message_type := env.XdndStatus, format := 32,
                l0 := env.window, l1 := 1, l2 := 0, l3 := 0,
                l4 := if 2 ≤ s.version then env.XdndActionCopy else 0 })]) := by
  have hne : m.message_type ≠ env.XdndEnter := hty ▸ hleave
  obtain ⟨out1, h1⟩ := non_enter_keeps_state env fuel s m hclose hne
  refine ⟨s, out1, h1, rfl, rfl, rfl, rfl, rfl, ?_⟩
  rintro ⟨hclosep, htyp, hatoms, hv, hfmt⟩
  have hfmt0 : s.format ≠ 0 := hfmt
  refine ⟨_, position_step env fuel s p hclosep htyp hatoms hv, ?_⟩
  simp [sentMessages, statusReply, hfmt0]

/-- C13, witness of the amended statement: the leave and position messages of
window 7 in its session of version 5 with format 400 chosen. -/
theorem leave_keeps_session_witness :
    ((demoMessage 306 0 0 0 0).l0 ≠ demoEnv.wm_delete_window ∧
      (demoMessage 306 0 0 0 0).message_type = demoEnv.XdndLeave ∧
      demoEnv.XdndLeave ≠ demoEnv.XdndEnter ∧
      (demoMessage 304 0 (50 * 2 ^ 16 + 60) 0 0).l0 ≠ demoEnv.wm_delete_window ∧
      (demoMessage 304 0 (50 * 2 ^ 16 + 60) 0 0).message_type = demoEnv.XdndPosition ∧
      demoEnv.XdndPosition ≠ demoEnv.XdndEnter ∧
      demoState.version ≤ 5 ∧ demoState.format ≠ None) ∧
    ∃ s1 out1 out2,
      step demoEnv 0 demoState (Event.clientMessage (demoMessage 306 0 0 0 0)) =
        some (s1, out1) ∧
      s1 = demoState ∧
      step demoEnv 0 s1 (Event.clientMessage (demoMessage 304 0 (50 * 2 ^ 16 + 60) 0 0)) =
        some (s1, out2) ∧
      sentMessages out2 =
        [(7, { window := 7, message_type := 305, format := 32, l0 := 100, l1 := 1, l2 := 0,
               l3 := 0, l4 := 309 })] :=
  ⟨⟨by decide, by decide, by decide, by decide, by decide, by decide, by decide, by decide⟩,
    (leave_keeps_session demoEnv 0 demoState (demoMessage 306 0 0 0 0)
      (demoMessage 304 0 (50 * 2 ^ 16 + 60) 0 0) (by decide) (by decide) (by decide)).elim
      (fun s1 h1 => h1.elim (fun out1 h =>
        (h.2.2.2.2.2.2 ⟨by decide, by decide, by decide, by decide, by decide⟩).elim
          (fun out2 h2 => ⟨s1, out1, out2, h.1, h.2.2.2.2.1, h2.1, h2.2⟩)))⟩

/-! ## Enter: what the new session depends on -/

/-- C14: the session after an enter message with a supported version does not
depend on the state before.  For any two prior states and any fuel the two
outcomes agree (both handlers return or neither does, with the same source,
version and chosen format); the source is data word 0, the version is data
word 1 shifted right by 24, and the chosen format is what the selection loop
computes from the candidates of this message, starting from `None`.  With fewer
than `2 ^ 32 - 2` candidates and `count + 1` units of fuel the handler returns
and that format is the first acceptable candidate (as `int32_t`), or `None`. -/
theorem enter_last_writer_wins (env : Env) (fuel : Nat) (s1 s2 : State) (m : ClientMessage)
    (hclose : m.l0 ≠ env.wm_delete_window) (hty : m.message_type = env.XdndEnter)
    (hv : m.l1 >>> 24 ≤ 5) :
    (step env fuel s1 (Event.clientMessage m)).map (fun r => sessionOf r.1) =
      (step env fuel s2 (Event.clientMessage m)).map (fun r => sessionOf r.1) ∧
    (step env fuel s1 (Event.clientMessage m)).map (fun r => sessionOf r.1) =
      (formatLoop env.getAtomName (enterCandidates env m.l0 m).nitems
          (enterCandidates env m.l0 m).items fuel 0 None).map
        (fun f => (m.l0, m.l1 >>> 24, f)) ∧
    ((enterCandidates env m.l0 m).nitems + 2 < 2 ^ 32 ∧
        (enterCandidates env m.l0 m).nitems + 1 ≤ fuel →
      (step env fuel s1 (Event.clientMessage m)).map (fun r => sessionOf r.1) =
        some (m.l0, m.l1 >>> 24,
          ((firstAcceptable env.getAtomName
            (candidateList (enterCandidates env m.l0 m))).map toInt32).getD None)) := by
  have key : ∀ s : State,
      (step env fuel s (Event.clientMessage m)).map (fun r => sessionOf r.1) =
        (formatLoop env.getAtomName (enterCandidates env m.l0 m).nitems
            (enterCandidates env m.l0 m).items fuel 0 None).map
          (fun f => (m.l0, m.l1 >>> 24, f)) := by
    intro s
    rw [enter_step env fuel s m hclose hty hv]
    cases formatLoop env.getAtomName (enterCandidates env m.l0 m).nitems
      (enterCandidates env m.l0 m).items fuel 0 None <;> rfl
  refine ⟨by rw [key s1, key s2], key s1, ?_⟩
  rintro ⟨hc, hf⟩
  rw [key s1, formatLoop_first_acceptable env.getAtomName _ hc fuel hf]
  rfl

/-- C14, witness: window 7 sends an enter message of version 5 whose only
candidate is atom 402 ("application/octet-stream"), once while its session
with format 400 is open and once while the session of window 9 is open.  Both
times the session afterwards is (7, 5, `None`). -/
theorem enter_last_writer_wins_witness :
    ((demoMessage 303 (enterWord 5 false) 402 0 0).l0 ≠ demoEnv.wm_delete_window ∧
      (demoMessage 303 (enterWord 5 false) 402 0 0).message_type = demoEnv.XdndEnter ∧
      (demoMessage 303 (enterWord 5 false) 402 0 0).l1 >>> 24 ≤ 5) ∧
    (step demoEnv 2 demoState
        (Event.clientMessage (demoMessage 303 (enterWord 5 false) 402 0 0))).map
        (fun r => sessionOf r.1) =
      (step demoEnv 2 otherState
        (Event.clientMessage (demoMessage 303 (enterWord 5 false) 402 0 0))).map
        (fun r => sessionOf r.1) ∧
    (step demoEnv 2 demoState
        (Event.clientMessage (demoMessage 303 (enterWord 5 false) 402 0 0))).map
        (fun r => sessionOf r.1) = some (7, 5, None) :=
  ⟨⟨by decide, by decide, by decide⟩,
    (enter_last_writer_wins demoEnv 2 demoState otherState
      (demoMessage 303 (enterWord 5 false) 402 0 0) (by decide) (by decide) (by decide)).1,
    by decide⟩

/-! ## Position twice -/

/-- C15: in a state with version at most 5 the same position message processed
twice in a row is answered twice: each time exactly one `XdndStatus` message is
sent to the source, the two messages are equal, and the state after the second
is the state after the first (and the state before). -/
theorem position_twice (env : Env) (fuel : Nat) (s : State) (m : ClientMessage)
    (hclose : m.l0 ≠ env.wm_delete_window) (hty : m.message_type = env.XdndPosition)
    (hatoms : env.XdndPosition ≠ env.XdndEnter) (hv : s.version ≤ 5) :
    ∃ s1 out1 s2 out2 reply,
      step env fuel s (Event.clientMessage m) = some (s1, out1) ∧
      step env fuel s1 (Event.clientMessage m) = some (s2, out2) ∧
      s2 = s1 ∧ s1 = s ∧
      sentMessages out1 = [(s.source, reply)] ∧
      sentMessages out2 = [(s.source, reply)] ∧
      reply.message_type = env.XdndStatus := by
  have h := position_step env fuel s m hclose hty hatoms hv
  exact ⟨s, _, s, _, statusReply env s, h, h, rfl, rfl, rfl, rfl, rfl⟩

/-- C15, witness: a position message at root coordinates (50, 60) in the
session of window 7. -/
theorem position_twice_witness :
    ((demoMessage 304 0 (50 * 2 ^ 16 + 60) 0 0).l0 ≠ demoEnv.wm_delete_window ∧
      (demoMessage 304 0 (50 * 2 ^ 16 + 60) 0 0).message_type = demoEnv.XdndPosition ∧
      demoEnv.XdndPosition ≠ demoEnv.XdndEnter ∧ demoState.version ≤ 5) ∧
    ∃ s1 out1 s2 out2 reply,
      step demoEnv 0 demoState
        (Event.clientMessage (demoMessage 304 0 (50 * 2 ^ 16 + 60) 0 0)) = some (s1, out1) ∧
      step demoEnv 0 s1
        (Event.clientMessage (demoMessage 304 0 (50 * 2 ^ 16 + 60) 0 0)) = some (s2, out2) ∧
      s2 = s1 ∧ s1 = demoState ∧
      sentMessages out1 = [(7, reply)] ∧
      sentMessages out2 = [(7, reply)] ∧
      reply.message_type = 305 :=
  ⟨⟨by decide, by decide, by decide, by decide⟩,
    position_twice demoEnv 0 demoState (demoMessage 304 0 (50 * 2 ^ 16 + 60) 0 0)
      (by decide) (by decide) (by decide) (by decide)⟩

/-! ## Enter: where the candidates come from -/

theorem inlineFormats_eq_spec (m : ClientMessage) : inlineFormats m = inlineCandidatesSpec m := by
  unfold inlineFormats inlineCandidatesSpec
  by_cases h2 : m.l2 = None <;> by_cases h3 : m.l3 = None <;> by_cases h4 : m.l4 = None <;>
    simp [h2, h3, h4, List.filter]

theorem inlineCandidatesSpec_length (m : ClientMessage) : (inlineCandidatesSpec m).length ≤ 3 := by
  unfold inlineCandidatesSpec
  exact (List.length_filter_le _ _).trans (by simp)

theorem range_map_getD (xs : List Int) (d : Int) :
    (List.range xs.length).map (fun i => xs.getD i d) = xs := by
  apply List.ext_getElem
  · simp
  · intro i h1 h2
    simp [List.getD_eq_getElem?_getD, List.getElem?_eq_getElem h2]

theorem enterCandidates_inline (env : Env) (source : Int) (m : ClientMessage)
    (hflag : lowBit m.l1 = false) :
    enterCandidates env source m =
      { nitems := (inlineCandidatesSpec m).length,
        items := fun i => (inlineCandidatesSpec m).getD i None } := by
  unfold enterCandidates
  rw [hflag, inlineFormats_eq_spec]
  rfl

theorem enterCandidates_list (env : Env) (source : Int) (m : ClientMessage)
    (hflag : lowBit m.l1 = true) :
    enterCandidates env source m = env.getWindowProperty source env.XdndTypeList XA_ATOM := by
  unfold enterCandidates
  rw [hflag]
  rfl

/-- C16: the candidates of an enter message with a supported version.  The
selection loop scans the array `enterCandidates` yields.  With the fetch-list
flag (bit 0 of data word 1) clear, that array holds exactly the values among
data words 2, 3, 4 that are not `None`, in that order, at most 3 of them, and
the outcome does not depend on what a property read would return.  With the
flag set, it is the `XdndTypeList` property of the source window (data word 0),
read as atoms, and the outcome does not depend on data words 2, 3, 4. -/
theorem enter_candidate_sourcing (env : Env) (fuel : Nat) (s : State) (m : ClientMessage)
    (hclose : m.l0 ≠ env.wm_delete_window) (hty : m.message_type = env.XdndEnter)
    (hv : m.l1 >>> 24 ≤ 5) :
    step env fuel s (Event.clientMessage m) =
      (formatLoop env.getAtomName (enterCandidates env m.l0 m).nitems
          (enterCandidates env m.l0 m).items fuel 0 None).map
        (fun f => (({ running := s.running, source := m.l0, version := m.l1 >>> 24,
                      format := f } : State), ([] : List Effect))) ∧
    (lowBit m.l1 = false →
      candidateList (enterCandidates env m.l0 m) = inlineCandidatesSpec m ∧
      (enterCandidates env m.l0 m).nitems ≤ 3 ∧
      ∀ g : Int → Int → Int → Property,
        step { env with getWindowProperty := g } fuel s (Event.clientMessage m) =
          step env fuel s (Event.clientMessage m)) ∧
    (lowBit m.l1 = true →
      enterCandidates env m.l0 m = env.getWindowProperty m.l0 env.XdndTypeList XA_ATOM ∧
      ∀ a b c : Int,
        step env fuel s (Event.clientMessage { m with l2 := a, l3 := b, l4 := c }) =
          step env fuel s (Event.clientMessage m)) := by
  refine ⟨enter_step env fuel s m hclose hty hv, ?_, ?_⟩
  · intro hflag
    refine ⟨?_, ?_, ?_⟩
    · rw [enterCandidates_inline env m.l0 m hflag]
      exact range_map_getD _ _
    · rw [enterCandidates_inline env m.l0 m hflag]
      exact inlineCandidatesSpec_length m
    · intro g
      rw [enter_step env fuel s m hclose hty hv,
        enter_step { env with getWindowProperty := g } fuel s m hclose hty hv,
        enterCandidates_inline env m.l0 m hflag,
        enterCandidates_inline { env with getWindowProperty := g } m.l0 m hflag]
  · intro hflag
    refine ⟨enterCandidates_list env m.l0 m hflag, ?_⟩
    intro a b c
    rw [enter_step env fuel s m hclose hty hv,
      enter_step env fuel s { m with l2 := a, l3 := b, l4 := c } hclose hty hv,
      enterCandidates_list env m.l0 m hflag,
      enterCandidates_list env m.l0 { m with l2 := a, l3 := b, l4 := c } hflag]

/-- C16, witness: an enter message of version 5 with the flag clear and data
words 2, 3, 4 equal to 402, `None`, 401 has the candidates `[402, 401]`; one
with the flag set has the type list `[401, 400]` of the source window. -/
theorem enter_candidate_sourcing_witness :
    ((demoMessage 303 (enterWord 5 false) 402 0 401).l0 ≠ demoEnv.wm_delete_window ∧
      (demoMessage 303 (enterWord 5 false) 402 0 401).message_type = demoEnv.XdndEnter ∧
      (demoMessage 303 (enterWord 5 false) 402 0 401).l1 >>> 24 ≤ 5 ∧
      lowBit (demoMessage 303 (enterWord 5 false) 402 0 401).l1 = false ∧
      lowBit (demoMessage 303 (enterWord 5 true) 402 0 401).l1 = true) ∧
    candidateList (enterCandidates demoEnv 7 (demoMessage 303 (enterWord 5 false) 402 0 401)) =
      [402, 401] ∧
    candidateList (enterCandidates demoEnv 7 (demoMessage 303 (enterWord 5 true) 402 0 401)) =
      [401, 400] :=
  ⟨⟨by decide, by decide, by decide, by decide, by decide⟩,
    (((enter_candidate_sourcing demoEnv 0 demoState (demoMessage 303 (enterWord 5 false) 402 0 401)
      (by decide) (by decide) (by decide)).2.1 (by decide)).1).trans (by decide),
    (congrArg candidateList
      ((enter_candidate_sourcing demoEnv 0 demoState
        (demoMessage 303 (enterWord 5 true) 402 0 401)
        (by decide) (by decide) (by decide)).2.2 (by decide)).1).trans (by decide)⟩

/-! ## The statement at line 169 -/

/-- C17, counterexample: two sessions with the same version (2) and the same
chosen format (`None`), opened by windows 9 and 7, receive the same leave
message.  The effects differ: each `XdndFinished` message goes to the source of
its own session. -/
theorem drop_action_depends_on_source :
    otherState.version = ({ otherState with source := 7 } : State).version ∧
    otherState.format = ({ otherState with source := 7 } : State).format ∧
    (step demoEnv 0 otherState (Event.clientMessage (demoMessage 306 0 0 0 0))).map
        (fun r => r.2) ≠
      (step demoEnv 0 { otherState with source := 7 }
        (Event.clientMessage (demoMessage 306 0 0 0 0))).map (fun r => r.2) := by
  decide

/-- C17, as amended: a client message that is neither the window-close message,
nor an enter, nor a position message leaves the state unchanged, and its
effects are the drop action computed from the source, the version, the chosen
format and data word 2 alone, whatever the type of the message: a conversion
request if a format is chosen, else an `XdndFinished` message that does not
accept if the version is at least 2, when the version is at most 5; nothing
when the version is above 5. -/
theorem drop_branch_ignores_message_type (env : Env) (fuel : Nat) (s : State)
    (m : ClientMessage)
    (hclose : m.l0 ≠ env.wm_delete_window) (henter : m.message_type ≠ env.XdndEnter)
    (hpos : m.message_type ≠ env.XdndPosition) (hatom : env.XdndDrop ≠ None) :
    step env fuel s (Event.clientMessage m) =
      some (s, dropAction env s.source s.version s.format m.l2) := by
  rw [drop_step env fuel s m hclose henter hpos]
  have hatom0 : env.XdndDrop ≠ 0 := hatom
  unfold handleDrop dropAction
  by_cases hv : s.version ≤ 5
  · rw [if_pos ⟨hatom0, hv⟩, if_pos hv]
    by_cases hf : s.format = 0
    · have hf1 : ¬ s.format ≠ 0 := not_not.mpr hf
      have hf2 : ¬ s.format ≠ None := not_not.mpr hf
      rw [if_neg hf1, if_neg hf2]
      by_cases h2 : 2 ≤ s.version
      · rw [if_pos (show s.version ≥ 2 from h2), if_pos h2]
        rfl
      · rw [if_neg (show ¬ s.version ≥ 2 from h2), if_neg h2]
    · have hf1 : s.format ≠ 0 := hf
      have hf2 : s.format ≠ None := hf
      rw [if_pos hf1, if_pos hf2]
  · rw [if_neg (fun h => hv h.2), if_neg hv]

/-- C17, witness of the amended statement: a client message of type atom 999,
which is none of the Xdnd message types, in the session of window 7. -/
theorem drop_branch_ignores_message_type_witness :
    ((demoMessage 999 0 123456 0 0).l0 ≠ demoEnv.wm_delete_window ∧
      (demoMessage 999 0 123456 0 0).message_type ≠ demoEnv.XdndEnter ∧
      (demoMessage 999 0 123456 0 0).message_type ≠ demoEnv.XdndPosition ∧
      demoEnv.XdndDrop ≠ None) ∧
    step demoEnv 0 demoState (Event.clientMessage (demoMessage 999 0 123456 0 0)) =
      some (demoState, [Effect.convertSelection 302 400 302 100 123456]) :=
  ⟨⟨by decide, by decide, by decide, by decide⟩,
    drop_branch_ignores_message_type demoEnv 0 demoState (demoMessage 999 0 123456 0 0)
      (by decide) (by decide) (by decide) (by decide)⟩

/-! ## The index of the selection loop at extreme counts -/

/-- When the low 32 bits of the count are `2 ^ 32 - 1` and the candidate at
index 1 is acceptable, every match sends the index back to 1: from index 1 the
loop does not return, whatever the fuel. -/
theorem formatLoop_wraps_to_one (g : Int → String) (count : Nat) (formats : Nat → Int)
    (hc : count % 2 ^ 32 = 2 ^ 32 - 1) (hm : matchesLink (g (formats 1)) = true) :
    ∀ (fuel : Nat) (fmt : Int), formatLoop g count formats fuel 1 fmt = none := by
  intro fuel
  induction fuel with
  | zero => intro fmt; rfl
  | succ k ih =>
    intro fmt
    have hlt : 1 < toUInt32 count := by
      unfold toUInt32
      omega
    have hexit : (toUInt32 (count + 1) + 1) % 2 ^ 32 = 1 := by
      unfold toUInt32
      omega
    rw [formatLoop, if_pos hlt, if_pos hm, hexit]
    exact ih _

/-- C18, counterexample: the candidate array starts with an acceptable name,
"text/plain", followed by "text/uri-list" entries.  With the count `2 ^ 32 - 1`
the match at index 0 sets the index to 0 and `i++` makes it 1: the loop goes on
past the first match, matches again at index 1 and comes back to index 1 for
ever.  With the count `2 ^ 32 - 2` the match at index 0 wraps the index to 0
and the scan starts again, for ever.  In both cases the loop never exits. -/
theorem format_loop_never_exits_at_extreme_counts :
    matchesLink (demoEnv.getAtomName (plainThenUriList 0)) = true ∧
    (∀ fuel : Nat,
      formatLoop demoEnv.getAtomName (2 ^ 32 - 1) plainThenUriList fuel 0 None = none) ∧
    (∀ fuel : Nat,
      formatLoop demoEnv.getAtomName (2 ^ 32 - 2) plainThenUriList fuel 0 None = none) := by
  refine ⟨by decide, ?_, fun fuel =>
    formatLoop_wraps_to_zero demoEnv.getAtomName (2 ^ 32 - 2) plainThenUriList
      (by norm_num) (by decide) fuel None⟩
  intro fuel
  cases fuel with
  | zero => rfl
  | succ k =>
    have hlt : 0 < toUInt32 (2 ^ 32 - 1) := by decide
    have hm : matchesLink (demoEnv.getAtomName (plainThenUriList 0)) = true := by decide
    have hexit : (toUInt32 (2 ^ 32 - 1 + 1) + 1) % 2 ^ 32 = 1 := by decide
    rw [formatLoop, if_pos hlt, if_pos hm, hexit]
    exact formatLoop_wraps_to_one demoEnv.getAtomName (2 ^ 32 - 1) plainThenUriList
      (by norm_num) (by decide) k _

/-- Below the wrap-around of the index, the loop started `d` candidates before
the first acceptable one, at index `k`, needs exactly `d + 2` loop tests: the
tests at the indices up to `k`, and the test that ends the loop. -/
theorem formatLoop_reaches_match (g : Int → String) (count : Nat) (formats : Nat → Int)
    (hc : count + 2 < 2 ^ 32) (k : Nat) (hk : k < count)
    (hmatch : matchesLink (g (formats k)) = true)
    (hfirst : ∀ j, j < k → matchesLink (g (formats j)) = false) :
    ∀ (d i : Nat) (fmt : Int), i + d = k →
      formatLoop g count formats (d + 2) i fmt = some (toInt32 (formats k)) ∧
      formatLoop g count formats (d + 1) i fmt = none := by
  have hcount : toUInt32 count = count := by
    unfold toUInt32
    omega
  intro d
  induction d with
  | zero =>
    intro i fmt hi
    have hik : i = k := by omega
    subst hik
    have hlt : i < toUInt32 count := by
      rw [hcount]
      exact hk
    have hexit : (toUInt32 (count + 1) + 1) % 2 ^ 32 = count + 2 := by
      unfold toUInt32
      omega
    have hstop : ¬ count + 2 < toUInt32 count := by
      rw [hcount]
      omega
    constructor
    · rw [formatLoop, if_pos hlt, if_pos hmatch, hexit, formatLoop, if_neg hstop]
    · rw [formatLoop, if_pos hlt, if_pos hmatch, formatLoop]
  | succ d ih =>
    intro i fmt hi
    have hlt : i < toUInt32 count := by
      rw [hcount]
      omega
    have hno : ¬ matchesLink (g (formats i)) = true := by
      rw [hfirst i (by omega)]
      exact Bool.false_ne_true
    have hnext : (i + 1) % 2 ^ 32 = i + 1 := by omega
    have h := ih (i + 1) fmt (by omega)
    constructor
    · rw [formatLoop, if_pos hlt, if_neg hno, hnext]
      exact h.1
    · rw [formatLoop, if_pos hlt, if_neg hno, hnext]
      exact h.2

/-- C18, as amended: for every count below `2 ^ 32 - 2` (every count the
program obtains is: at most 3 inline candidates, at most `0x7fffffe` from a
property read) and every candidate array whose first acceptable name is at
index `k`, the loop exits right after the match at index `k`: `k + 2` loop
tests give the result, `format` being candidate `k` narrowed to `int32_t`, and
`k + 1` tests do not, so the index is not wrapped, no candidate is scanned
again and none after index `k` is scanned. -/
theorem format_loop_exits_at_first_match (g : Int → String) (count : Nat)
    (formats : Nat → Int) (fmt : Int)
    (hc : count + 2 < 2 ^ 32) (k : Nat) (hk : k < count)
    (hmatch : matchesLink (g (formats k)) = true)
    (hfirst : ∀ j, j < k → matchesLink (g (formats j)) = false) :
    formatLoop g count formats (k + 2) 0 fmt = some (toInt32 (formats k)) ∧
    formatLoop g count formats (k + 1) 0 fmt = none :=
  formatLoop_reaches_match g count formats hc k hk hmatch hfirst k 0 fmt (by omega)

/-- C18, witness of the amended statement: three candidates,
"application/octet-stream", "text/plain", "text/uri-list"; the first acceptable
one is at index 1, the loop exits at its third test with format 401. -/
theorem format_loop_exits_at_first_match_witness :
    (3 + 2 < 2 ^ 32 ∧ 1 < 3 ∧
      matchesLink (demoEnv.getAtomName (octetPlainUri 1)) = true ∧
      ∀ j, j < 1 → matchesLink (demoEnv.getAtomName (octetPlainUri j)) = false) ∧
    formatLoop demoEnv.getAtomName 3 octetPlainUri (1 + 2) 0 None = some (toInt32 401) ∧
    formatLoop demoEnv.getAtomName 3 octetPlainUri (1 + 1) 0 None = none :=
  ⟨⟨by decide, by decide, by decide, fun j hj => by
      have hj0 : j = 0 := by omega
      subst hj0
      decide⟩,
    format_loop_exits_at_first_match demoEnv.getAtomName 3 octetPlainUri None (by decide) 1
      (by decide) (by decide) (fun j hj => by
        have hj0 : j = 0 := by omega
        subst hj0
        decide)⟩

end Xdnd
